import Mathlib

/-!
Verification of the alertmanager-webhook dispatcher (src/webhook.py).

The development shallowly embeds the alert-to-message translation and
routing engine of the webhook receiver:

* `substitute_hyperlinks` (webhook.py lines 154-186): Slack-style
  hyperlink rewriting, including a faithful executable model of the
  regular expression search performed by the Python code
  (pattern on line 168, with non-greedy sub-patterns and the fact that
  a bare dot never matches a newline) and of the repeated
  whole-match replacement loop.
* `parse_alert` (lines 211-366): field extraction, the Watchdog
  suppression marker, severity defaulting, the trailing timestamp line
  and the environment resolution fallback chain.
* the three destination handlers `discord_handler` (369-471),
  `telegram_handler` (474-548) and `pagerduty_handler` (551-662),
  modelled per alert as step functions threaded through the batch loop,
  with the outbound HTTP collaborator abstracted as a response oracle
  indexed by the number of calls issued so far, and the 429 retry logic
  of each handler captured by `postWithRetry`.

Timestamp parsing (dateutil) and the wall clock are external
collaborators; they enter the model as an explicit parsing function
argument so that theorems can quantify over their behaviour.
-/

/-! ## Generic string helpers -/

/-- Ordered association-list lookup, first binding wins.  Models Python
dictionary indexing and membership tests (insertion-ordered dicts). -/
def alookup {α : Type} (m : List (String × α)) (k : String) : Option α :=
  match m with
  | [] => none
  | p :: rest => if p.1 = k then some p.2 else alookup rest k

/-- Does the pattern occur at the very start of the character list? -/
def leadsWith : List Char → List Char → Bool
  | [], _ => true
  | _ :: _, [] => false
  | p :: ps, c :: cs => p = c && leadsWith ps cs

/-- Substring test on character lists; models the Python operator
`needle in haystack` on strings (the empty needle always occurs). -/
def isSubstrOf : List Char → List Char → Bool
  | needle, [] => needle.isEmpty
  | needle, c :: t => leadsWith needle (c :: t) || isSubstrOf needle t

/-- ASCII upper-casing; models Python str.upper() on the ASCII strings
the webhook manipulates. -/
def strUpper (s : String) : String :=
  String.mk (s.toList.map Char.toUpper)

/-! ## The regex search of substitute_hyperlinks

Python pattern (webhook.py line 168) is
a group of: a literal angle bracket, an http or https scheme, a lazy
run of non-newline characters, a literal pipe, a lazy run of
non-newline characters, and a closing angle bracket.  The two lazy runs
stop at the first pipe and the first closing bracket respectively, and
a newline anywhere inside the span makes the candidate fail (a bare dot
does not match a newline); backtracking cannot rescue such a candidate
because the runs themselves may not cross a newline.  The second capture
group includes the scheme. -/

/-- Consume characters until the stop character; fail on a newline or
when the input ends before the stop character appears. -/
def takeUntilCh (stop : Char) : List Char → Option (List Char × List Char)
  | [] => none
  | c :: cs =>
    if c = stop then some ([], cs)
    else if c = '\n' then none
    else
      match takeUntilCh stop cs with
      | some (pre, rest) => some (c :: pre, rest)
      | none => none

/-- Match the scheme part of the pattern. -/
def stripScheme (cs : List Char) : Option (List Char × List Char) :=
  if leadsWith "https://".toList cs then some ("https://".toList, List.drop 8 cs)
  else if leadsWith "http://".toList cs then some ("http://".toList, List.drop 7 cs)
  else none

/-- One regex match: the whole matched text (group 1), the url with its
scheme (group 2) and the link text (group 3). -/
structure LinkMatch where
  whole : List Char
  url : List Char
  label : List Char
deriving DecidableEq, Repr

/-- Attempt a match of the hyperlink pattern anchored at the start of
the input; on success also return the input remaining after the match. -/
def matchAt (cs : List Char) : Option (LinkMatch × List Char) :=
  match cs with
  | '<' :: rest =>
    match stripScheme rest with
    | some (scheme, r1) =>
      match takeUntilCh '|' r1 with
      | some (upart, r2) =>
        match takeUntilCh '>' r2 with
        | some (label, r3) =>
          some ({ whole := '<' :: (scheme ++ upart) ++ '|' :: label ++ ['>']
                , url := scheme ++ upart
                , label := label }, r3)
        | none => none
      | none => none
    | none => none
  | _ => none

/-- Leftmost, non-overlapping scan, continuing after each match; the
fuel argument is the input length, which bounds the number of scan
steps since every step consumes at least one character. -/
def findAllAux : Nat → List Char → List LinkMatch
  | 0, _ => []
  | _ + 1, [] => []
  | fuel + 1, c :: cs =>
    match matchAt (c :: cs) with
    | some (m, rest) => m :: findAllAux fuel rest
    | none => findAllAux fuel cs

/-- All matches of the hyperlink pattern, in order; models re.findall
with the pattern of webhook.py line 168. -/
def findAll (cs : List Char) : List LinkMatch :=
  findAllAux cs.length cs

/-! ## String replacement (Python str.replace) -/

/-- Leftmost occurrence of the pattern: input = before, pattern, after. -/
def findOcc (pat : List Char) : List Char → Option (List Char × List Char)
  | [] => if pat.isEmpty then some ([], []) else none
  | c :: cs =>
    if leadsWith pat (c :: cs) then some ([], List.drop pat.length (c :: cs))
    else
      match findOcc pat cs with
      | some (pre, post) => some (c :: pre, post)
      | none => none

/-- Replace every non-overlapping occurrence, left to right, resuming
after the replacement text; fuel bounds the number of replacements. -/
def replaceAllAux (pat new : List Char) : Nat → List Char → List Char
  | 0, s => s
  | fuel + 1, s =>
    match findOcc pat s with
    | some (pre, post) => pre ++ new ++ replaceAllAux pat new fuel post
    | none => s

/-- Python str.replace(pat, new): every non-overlapping occurrence is
replaced, left to right.  A nonempty pattern occurrence consumes at
least one character, so input length bounds the replacement count. -/
def replaceAll (pat new s : List Char) : List Char :=
  if pat.isEmpty then s else replaceAllAux pat new s.length s

/-! ## substitute_hyperlinks (webhook.py lines 154-186) -/

/-- The rich-text replacement text built on line 178. -/
def htmlLink (m : LinkMatch) : List Char :=
  "<a href=\"".toList ++ m.url ++ "\">".toList ++ m.label ++ "</a>".toList

/-- The markdown replacement text built on line 180. -/
def mdLink (m : LinkMatch) : List Char :=
  '[' :: m.label ++ "](".toList ++ m.url ++ [')']

/-- The for-loop of lines 172-184: for each match in order, check the
output format, then replace every occurrence of the whole matched text.
An unsupported format raises on the first iteration, so a text without
matches never reaches the check. -/
def substLoop (fmt : String) : List LinkMatch → List Char → Except String (List Char)
  | [], text => .ok text
  | m :: ms, text =>
    if fmt = "html" then substLoop fmt ms (replaceAll m.whole (htmlLink m) text)
    else if fmt = "markdown" then substLoop fmt ms (replaceAll m.whole (mdLink m) text)
    else .error ("Unsupported link format: " ++ fmt)

/-- webhook.py lines 154-186: find all Slack-style hyperlinks and
rewrite each into the requested output format. -/
def substitute_hyperlinks (text : String) (fmt : String) : Except String String :=
  match substLoop fmt (findAll text.toList) text.toList with
  | .ok cs => .ok (String.mk cs)
  | .error e => .error e

/-! ## Data model: alerts and configuration -/

/-- One inbound alert.  status, labels and annotations are accessed
unconditionally by the Python code; startsAt and endsAt are only read
in the timestamp branch and may be absent. -/
structure Alert where
  status : String
  labels : List (String × String)
  annotations : List (String × String)
  startsAt : Option String
  endsAt : Option String
deriving Repr

/-- One discord environment/severity routing entry (channel_id and the
author block validated at startup by validate_config). -/
structure DiscordRoute where
  channel_id : String
  author_name : String
  author_icon_url : String
deriving DecidableEq, Repr

/-- The discord section of config.yml. -/
structure DiscordCfg where
  bot_token : String
  environments : List (String × List (String × DiscordRoute))
deriving Repr

/-- One telegram environment/severity routing entry. -/
structure TelegramRoute where
  chat_id : String
deriving DecidableEq, Repr

/-- The telegram section of config.yml. -/
structure TelegramCfg where
  bot_token : String
  environments : List (String × List (String × TelegramRoute))
deriving Repr

/-- The pagerduty section of config.yml.  Only key membership of the
environments mapping is consulted, so it is modelled by its key list. -/
structure PagerdutyCfg where
  environments : List String
  services : List (String × String)
deriving Repr

/-- The process-wide configuration loaded at startup. -/
structure Config where
  valid_environments : List String
  default_environment : String
  environment_mapping : List (String × String)
  discord : Option DiscordCfg
  telegram : Option TelegramCfg
  pagerduty : Option PagerdutyCfg
deriving Repr

/-! ## parse_alert (webhook.py lines 211-366) -/

/-- webhook.py lines 189-208: per-destination label wrapping of one
formatted field line. -/
def parse_alert_message (notification_system title message : String) : String :=
  if notification_system = "telegram" then "<b>" ++ title ++ "</b>: " ++ message
  else if notification_system = "discord" then "**" ++ title ++ "**: " ++ message
  else if notification_system = "pagerduty" then title ++ ": " ++ message
  else title ++ ": " ++ message

/-- Result of parse_alert: either the suppression marker (the Python
tuple whose seven components are all None, webhook.py line 249) or the
fully built seven-component record. -/
inductive ParseResult where
  | suppressed
  | alert (title description hostname status application environment severity : String)
deriving DecidableEq, Repr

/-- Lines 266-293: the hostname-family chain (hostname, then nodename,
then node, then instance; first present wins) together with the
description line it appends ("Instance" is reused for nodename). -/
def hostnameLine (a : Alert) (ns : String) : String × String :=
  match alookup a.labels "hostname" with
  | some v => (v, parse_alert_message ns "Hostname" (v ++ "\n"))
  | none =>
    match alookup a.labels "nodename" with
    | some v => (v, parse_alert_message ns "Instance" (v ++ "\n"))
    | none =>
      match alookup a.labels "node" with
      | some v => (v, parse_alert_message ns "Node" (v ++ "\n"))
      | none =>
        match alookup a.labels "instance" with
        | some v => (v, parse_alert_message ns "Instance" (v ++ "\n"))
        | none => ("", "")

/-- A description line for an optional field, empty when absent. -/
def optLine (ns label : String) (v : Option String) : String :=
  match v with
  | some s => parse_alert_message ns label (s ++ "\n")
  | none => ""

/-- The description accumulated by lines 251-329, in source order:
environment, app, hostname family, info, description, runbook_url, log
(the severity and summary steps interleaved there touch other fields). -/
def baseDescription (a : Alert) (ns : String) : String :=
  optLine ns "Environment" (alookup a.labels "environment")
  ++ optLine ns "App" (alookup a.labels "app")
  ++ (hostnameLine a ns).2
  ++ optLine ns "Info" (alookup a.annotations "info")
  ++ optLine ns "Description" (alookup a.annotations "description")
  ++ optLine ns "Runbook URL" (alookup a.annotations "runbook_url")
  ++ optLine ns "Log" (alookup a.labels "log")

/-- Lines 242 and 307-308: the upper-cased status, overridden when a
summary annotation is present. -/
def baseTitle (a : Alert) : String :=
  match alookup a.annotations "summary" with
  | some s => strUpper (a.status ++ " : " ++ s)
  | none => strUpper a.status

/-- Lines 258-259: the app label, else empty. -/
def baseApplication (a : Alert) : String :=
  match alookup a.labels "app" with
  | some v => v
  | none => ""

/-- Lines 295-298: the severity label, else the default severity taken
from the POST URL. -/
def baseSeverity (a : Alert) (default_severity : String) : String :=
  match alookup a.labels "severity" with
  | some v => v
  | none => default_severity

/-- Lines 331-346: the trailing timestamp line.  For a resolved alert
endsAt is read and parsed; for a firing alert startsAt is; any other
status appends nothing and parses nothing.  A missing field (KeyError)
or an unparsable timestamp propagates as an error. -/
def timestampLine (a : Alert) (ns : String) (pts : String → Option String) :
    Except String String :=
  if a.status = "resolved" then
    match a.endsAt with
    | none => .error "KeyError: endsAt"
    | some ts =>
      match pts ts with
      | some d => .ok (parse_alert_message ns "Resolved" d)
      | none => .error "MalformedTimestampError"
  else if a.status = "firing" then
    match a.startsAt with
    | none => .error "KeyError: startsAt"
    | some ts =>
      match pts ts with
      | some d => .ok (parse_alert_message ns "Started" d)
      | none => .error "MalformedTimestampError"
  else .ok ""

/-- Lines 356-359: the substring-mapping loop.  Note the loop body has
no break and rebinds the environment variable, so every later key is
tested against the current, possibly already substituted, value. -/
def applyMapping (mapping : List (String × String)) (environment : String) : String :=
  match mapping with
  | [] => environment
  | (k, v) :: rest =>
    applyMapping rest (if isSubstrOf k.toList environment.toList then v else environment)

/-- Lines 348-364: the environment fallback chain.  Absent label gives
the default; a valid raw value passes unchanged; otherwise the mapping
loop runs and its result is kept only when valid, else the default. -/
def resolveEnvironment (cfg : Config) (labels : List (String × String)) : String :=
  match alookup labels "environment" with
  | none => cfg.default_environment
  | some env0 =>
    let env1 := if env0 ∈ cfg.valid_environments then env0
                else applyMapping cfg.environment_mapping env0
    if env1 ∈ cfg.valid_environments then env1 else cfg.default_environment

/-- webhook.py lines 211-366.  The timestamp parser pts stands for the
external dateutil collaborator (returning the formatted date on
success); the configuration is passed explicitly where the Python code
reads the module-level config. -/
def parse_alert (alert : Alert) (default_severity notification_system : String)
    (pts : String → Option String) (cfg : Config) : Except String ParseResult :=
  if alookup alert.labels "alertname" = some "Watchdog" then
    .ok .suppressed
  else
    match timestampLine alert notification_system pts with
    | .error e => .error e
    | .ok tline =>
      .ok (.alert (baseTitle alert)
                  (baseDescription alert notification_system ++ tline)
                  (hostnameLine alert notification_system).1
                  alert.status
                  (baseApplication alert)
                  (resolveEnvironment cfg alert.labels)
                  (baseSeverity alert default_severity))

/-! ## The outbound HTTP collaborator and the 429 retry -/

/-- One upstream HTTP response: the status code and, from its JSON
body, the retry_after delay (read only on 429) and the body recorded
into the handler's response list. -/
structure HttpResp where
  status : Nat
  retry_after : Nat
  body : String
deriving DecidableEq, Repr

/-- Outcome of delivering one alert to one destination: how many
outbound calls were issued (1 or 2), the delay slept before a retry,
and the response body recorded for this alert. -/
structure SendResult where
  calls : Nat
  waited : Option Nat
  recorded : String
deriving DecidableEq, Repr

/-- The shared shape of webhook.py lines 436-469, 517-542 and 638-655:
POST once; on a 429 response sleep for the advertised retry_after and
POST once more, recording the second response body whatever it is; any
other status is recorded directly (non-2xx only logged).  The upstream
is an oracle from the index of the call to its response; the call at
index n is the (n+1)-th POST issued by the handler run. -/
def postWithRetry (http : Nat → HttpResp) (n : Nat) : SendResult :=
  let r := http n
  if r.status = 429 then
    { calls := 2, waited := some r.retry_after, recorded := (http (n + 1)).body }
  else
    { calls := 1, waited := none, recorded := r.body }

/-- Per-destination loop state: outbound calls issued so far and the
accumulated per-alert response list. -/
structure HState where
  ncalls : Nat
  responses : List String
deriving DecidableEq, Repr

/-- Outcome of one pagerduty loop iteration: either continue with the
next alert or return the accumulated responses immediately (the early
return on webhook.py line 582). -/
inductive StepOut where
  | next (st : HState)
  | stop (st : HState)
deriving DecidableEq, Repr

/-- The state carried by a step outcome. -/
def StepOut.state : StepOut → HState
  | .next st => st
  | .stop st => st

/-- Result of one handler invocation: the 404 branch when the config
section is absent, the response list, or a propagated exception. -/
inductive HandlerResult where
  | notConfigured
  | ok (st : HState)
  | failed (e : String)
deriving DecidableEq, Repr

/-! ## discord_handler (webhook.py lines 369-471) -/

/-- Lines 407-420: embed colour from the raw alert status and the
resolved severity, as the integer value of the hex digits. -/
def discordColor (status severity : String) : Nat :=
  if status = "firing" then
    if severity = "critical" then 0xE01E5A
    else if severity = "warning" then 0xECB22E
    else if severity = "info" then 0x36C5F0
    else 0xECB22E
  else 0x2EB67D

/-- One iteration of the discord for-loop (lines 393-469).  The
suppression marker skips the alert; the routing lookup on line 401 is
unchecked, so a missing environment or severity key raises a KeyError
that propagates out of the handler; otherwise the embed is built (its
description passed through substitute_hyperlinks with the markdown
format) and the message POSTed with the 429 retry.  The embed payload
itself (channel URL, author block, colour, current-time timestamp) does
not influence control flow and is kept only through the colour value
and the substituted description inside the call. -/
def discordStep (cfg : Config) (dcfg : DiscordCfg) (ds : String)
    (pts : String → Option String) (http : Nat → HttpResp)
    (st : HState) (a : Alert) : Except String HState :=
  match parse_alert a ds "discord" pts cfg with
  | .error e => .error e
  | .ok .suppressed => .ok st
  | .ok (.alert _title description _hostname _status _application environment severity) =>
    match alookup dcfg.environments environment with
    | none => .error ("KeyError: " ++ environment)
    | some sevMap =>
      match alookup sevMap severity with
      | none => .error ("KeyError: " ++ severity)
      | some _route =>
        match substitute_hyperlinks description "markdown" with
        | .error e => .error e
        | .ok _descMd =>
          let _color := discordColor a.status severity
          let r := postWithRetry http st.ncalls
          .ok { ncalls := st.ncalls + r.calls
              , responses := st.responses ++ [r.recorded] }

/-- The per-alert loop shared by the discord and telegram handlers. -/
def runLoop (step : HState → Alert → Except String HState) :
    HState → List Alert → Except String HState
  | st, [] => .ok st
  | st, a :: as =>
    match step st a with
    | .ok st2 => runLoop step st2 as
    | .error e => .error e

/-- webhook.py lines 369-471. -/
def discord_handler (cfg : Config) (alerts : List Alert) (ds : String)
    (pts : String → Option String) (http : Nat → HttpResp) : HandlerResult :=
  match cfg.discord with
  | none => .notConfigured
  | some dcfg =>
    match runLoop (discordStep cfg dcfg ds pts http) { ncalls := 0, responses := [] } alerts with
    | .ok st => .ok st
    | .error e => .failed e

/-! ## telegram_handler (webhook.py lines 474-548) -/

/-- One iteration of the telegram for-loop (lines 499-546).  The
suppression marker skips the alert; a missing environment key (line
507) or severity key (line 510) silently skips it as well; otherwise
the html-mode message is POSTed with the 429 retry. -/
def telegramStep (cfg : Config) (tcfg : TelegramCfg) (ds : String)
    (pts : String → Option String) (http : Nat → HttpResp)
    (st : HState) (a : Alert) : Except String HState :=
  match parse_alert a ds "telegram" pts cfg with
  | .error e => .error e
  | .ok .suppressed => .ok st
  | .ok (.alert title description _hostname _status _application environment severity) =>
    match alookup tcfg.environments environment with
    | none => .ok st
    | some sevMap =>
      match alookup sevMap severity with
      | none => .ok st
      | some _route =>
        let _message := "<b>" ++ title ++ "</b>\n\n" ++ description
        let r := postWithRetry http st.ncalls
        .ok { ncalls := st.ncalls + r.calls
            , responses := st.responses ++ [r.recorded] }

/-- webhook.py lines 474-548. -/
def telegram_handler (cfg : Config) (alerts : List Alert) (ds : String)
    (pts : String → Option String) (http : Nat → HttpResp) : HandlerResult :=
  match cfg.telegram with
  | none => .notConfigured
  | some tcfg =>
    match runLoop (telegramStep cfg tcfg ds pts http) { ncalls := 0, responses := [] } alerts with
    | .ok st => .ok st
    | .error e => .failed e

/-! ## pagerduty_handler (webhook.py lines 551-662) -/

/-- Lines 601-605: the service name from the hostname, the run of
leading ASCII letters when the character right after it is a dot or a
hyphen (the lookahead of the regex on line 601). -/
def serviceNameFromHostname (hostname : String) : Option String :=
  let cs := hostname.toList
  let pre := cs.takeWhile (fun c => (97 ≤ c.toNat && c.toNat ≤ 122) || (65 ≤ c.toNat && c.toNat ≤ 90))
  match cs.drop pre.length with
  | c :: _ => if pre ≠ [] ∧ (c = '.' ∨ c = '-') then some (String.mk pre) else none
  | [] => none

/-- One iteration of the pagerduty for-loop (lines 575-660), in source
order: a severity other than critical returns the accumulated
responses immediately (line 582, a batch-level early return, not a
per-alert skip); the suppression marker carries a None severity and
therefore also takes that return; a status other than firing skips the
alert (line 594), as does an environment missing from the pagerduty
environments mapping (line 598); then the service name is derived
(hostname pattern, then application, then hostname, then the literal
default), the routing key looked up with a fallback to the default
service entry, an empty hostname replaced by the literal none for the
source field, and the event POSTed with the 429 retry. -/
def pagerdutyStep (cfg : Config) (pcfg : PagerdutyCfg) (ds : String)
    (pts : String → Option String) (http : Nat → HttpResp)
    (st : HState) (a : Alert) : Except String StepOut :=
  match parse_alert a ds "pagerduty" pts cfg with
  | .error e => .error e
  | .ok .suppressed => .ok (.stop st)
  | .ok (.alert title description hostname status application environment severity) =>
    if severity ≠ "critical" then .ok (.stop st)
    else if status = "firing" then
      if environment ∈ pcfg.environments then
        let service :=
          match serviceNameFromHostname hostname with
          | some s => s
          | none =>
            if (alookup pcfg.services application).isSome then application
            else if (alookup pcfg.services hostname).isSome then hostname
            else "default"
        let key :=
          match alookup pcfg.services service with
          | some k => some k
          | none => alookup pcfg.services "default"
        match key with
        | none => .error "KeyError: default"
        | some _routing_key =>
          let _summary := title ++ "\n\n" ++ description
          let _source := if hostname = "" then "none" else hostname
          let r := postWithRetry http st.ncalls
          .ok (.next { ncalls := st.ncalls + r.calls
                     , responses := st.responses ++ [r.recorded] })
      else .ok (.next st)
    else .ok (.next st)

/-- The pagerduty per-alert loop, honouring the early return. -/
def runPd (step : HState → Alert → Except String StepOut) :
    HState → List Alert → Except String HState
  | st, [] => .ok st
  | st, a :: as =>
    match step st a with
    | .ok (.next st2) => runPd step st2 as
    | .ok (.stop st2) => .ok st2
    | .error e => .error e

/-- webhook.py lines 551-662. -/
def pagerduty_handler (cfg : Config) (alerts : List Alert) (ds : String)
    (pts : String → Option String) (http : Nat → HttpResp) : HandlerResult :=
  match cfg.pagerduty with
  | none => .notConfigured
  | some pcfg =>
    match runPd (pagerdutyStep cfg pcfg ds pts http) { ncalls := 0, responses := [] } alerts with
    | .ok st => .ok st
    | .error e => .failed e

/-! ## Concrete fixtures used by witnesses and counterexamples -/

/-- A total stand-in for the dateutil timestamp parser. -/
def ptsX : String → Option String := fun _ => some "2022-01-01 00:00:00"

/-- An upstream that always answers 200. -/
def httpOkX : Nat → HttpResp := fun _ => { status := 200, retry_after := 0, body := "ok" }

/-- An upstream that answers 429 with retry_after 2 on the first call
and 200 on every later call. -/
def http429X : Nat → HttpResp :=
  fun n => if n = 0 then { status := 429, retry_after := 2, body := "limited" }
           else { status := 200, retry_after := 0, body := "ok" }

/-- Discord section: prod environment, critical severity only. -/
def dcfgX : DiscordCfg :=
  { bot_token := "tok"
  , environments := [("prod", [("critical",
      { channel_id := "chan", author_name := "bot", author_icon_url := "icon" })])] }

/-- Telegram section: prod environment, critical severity only. -/
def tcfgX : TelegramCfg :=
  { bot_token := "tok"
  , environments := [("prod", [("critical", { chat_id := "chat" })])] }

/-- Pagerduty section: prod environment, only the default service. -/
def pcfgX : PagerdutyCfg :=
  { environments := ["prod"], services := [("default", "rk")] }

/-- A configuration with all three destination sections. -/
def cfgX : Config :=
  { valid_environments := ["prod"]
  , default_environment := "prod"
  , environment_mapping := []
  , discord := some dcfgX
  , telegram := some tcfgX
  , pagerduty := some pcfgX }

/-- The initial per-destination loop state. -/
def st0X : HState := { ncalls := 0, responses := [] }

/-- A heartbeat alert. -/
def aWatchX : Alert :=
  { status := "firing", labels := [("alertname", "Watchdog")], annotations := []
  , startsAt := some "s", endsAt := none }

/-- A firing warning alert for the prod environment. -/
def aWarnX : Alert :=
  { status := "firing", labels := [("severity", "warning"), ("environment", "prod")]
  , annotations := [], startsAt := some "s", endsAt := none }

/-- A firing critical alert for the prod environment. -/
def aCritX : Alert :=
  { status := "firing", labels := [("severity", "critical"), ("environment", "prod")]
  , annotations := [], startsAt := some "s", endsAt := none }

/-- An alert whose status is neither firing nor resolved. -/
def aNoopX : Alert :=
  { status := "noop", labels := [("environment", "prod")], annotations := []
  , startsAt := none, endsAt := none }

/-! ## Helper lemmas -/

/-- Inversion for a successful, non-suppressed parse: every component
of the record is the corresponding extraction function of the alert. -/
theorem parse_alert_inv {a : Alert} {ds ns : String} {pts : String → Option String}
    {cfg : Config} {t d h s ap env sev : String}
    (hp : parse_alert a ds ns pts cfg = .ok (.alert t d h s ap env sev)) :
    t = baseTitle a ∧ h = (hostnameLine a ns).1 ∧ s = a.status ∧ ap = baseApplication a
    ∧ env = resolveEnvironment cfg a.labels ∧ sev = baseSeverity a ds := by
  unfold parse_alert at hp
  split at hp
  · exact absurd hp (by simp)
  · split at hp
    · exact absurd hp (by simp)
    · simp only [Except.ok.injEq, ParseResult.alert.injEq] at hp
      obtain ⟨ht, _, hh, hs, hap, henv, hsev⟩ := hp
      exact ⟨ht.symm, hh.symm, hs.symm, hap.symm, henv.symm, hsev.symm⟩

/-- The resolver yields the default when the label is absent. -/
theorem resolveEnvironment_none {cfg : Config} {labels : List (String × String)}
    (h : alookup labels "environment" = none) :
    resolveEnvironment cfg labels = cfg.default_environment := by
  unfold resolveEnvironment
  rw [h]

/-- The resolver passes an already valid raw value through unchanged. -/
theorem resolveEnvironment_valid {cfg : Config} {labels : List (String × String)}
    {raw : String} (h : alookup labels "environment" = some raw)
    (hv : raw ∈ cfg.valid_environments) :
    resolveEnvironment cfg labels = raw := by
  unfold resolveEnvironment
  rw [h]
  simp [hv]

/-- For an invalid raw value the resolver keeps the mapping loop's
result when that is valid and otherwise falls back to the default. -/
theorem resolveEnvironment_invalid {cfg : Config} {labels : List (String × String)}
    {raw : String} (h : alookup labels "environment" = some raw)
    (hnv : raw ∉ cfg.valid_environments) :
    resolveEnvironment cfg labels
      = if applyMapping cfg.environment_mapping raw ∈ cfg.valid_environments
        then applyMapping cfg.environment_mapping raw
        else cfg.default_environment := by
  unfold resolveEnvironment
  rw [h]
  simp [hnv]

/-- Totality of the resolver under the configuration invariant that the
default environment is itself valid. -/
theorem resolveEnvironment_mem (cfg : Config) (labels : List (String × String))
    (hdef : cfg.default_environment ∈ cfg.valid_environments) :
    resolveEnvironment cfg labels ∈ cfg.valid_environments := by
  unfold resolveEnvironment
  split
  · exact hdef
  · simp only []
    split <;> first | assumption | (split <;> assumption)

/-! ## Claim theorems -/

/-- C1: Environment resolution is total: for every alert parsed to a
record, under the configuration invariant that the default environment
is itself listed among the valid environments, the environment
component of the parse_alert result is a member of valid_environments;
an absent environment label yields the default; a present and already
valid label is returned unchanged; otherwise the result is the
substring-mapping loop's value when that value is valid and the
default in every remaining case. -/
theorem parse_alert_environment_total
    (cfg : Config) (a : Alert) (ds ns : String) (pts : String → Option String)
    (t d h s ap env sev : String)
    (hdef : cfg.default_environment ∈ cfg.valid_environments)
    (hp : parse_alert a ds ns pts cfg = .ok (.alert t d h s ap env sev)) :
    env ∈ cfg.valid_environments
    ∧ (alookup a.labels "environment" = none → env = cfg.default_environment)
    ∧ (∀ raw, alookup a.labels "environment" = some raw →
        raw ∈ cfg.valid_environments → env = raw)
    ∧ (∀ raw, alookup a.labels "environment" = some raw →
        raw ∉ cfg.valid_environments →
        env = if applyMapping cfg.environment_mapping raw ∈ cfg.valid_environments
              then applyMapping cfg.environment_mapping raw
              else cfg.default_environment) := by
  obtain ⟨-, -, -, -, henv, -⟩ := parse_alert_inv hp
  subst henv
  exact ⟨resolveEnvironment_mem cfg a.labels hdef,
         fun hn => resolveEnvironment_none hn,
         fun raw hr hv => resolveEnvironment_valid hr hv,
         fun raw hr hnv => resolveEnvironment_invalid hr hnv⟩

/-- Witness for C1 at a concrete firing critical alert: the resolved
environment is valid. -/
theorem parse_alert_environment_total_witness :
    "prod" ∈ cfgX.valid_environments :=
  (parse_alert_environment_total cfgX aCritX "d" "pagerduty" ptsX
    "FIRING" "Environment: prod\nStarted: 2022-01-01 00:00:00" "" "firing" "" "prod" "critical"
    (by decide) (by rfl)).1

/-- C10: for every non-suppressed alert whose status is neither firing
nor resolved, parse_alert succeeds with the description built from the
field lines alone (no trailing Started or Resolved line), and the
result is independent of the startsAt and endsAt fields and of the
timestamp parser, so the timestamp-parsing error branch is unreachable
for such alerts even when those fields are absent or malformed. -/
theorem no_timestamp_for_other_status
    (cfg : Config) (a : Alert) (ds ns : String) (pts : String → Option String)
    (h1 : a.status ≠ "firing") (h2 : a.status ≠ "resolved")
    (h3 : alookup a.labels "alertname" ≠ some "Watchdog") :
    parse_alert a ds ns pts cfg
      = .ok (.alert (baseTitle a) (baseDescription a ns) (hostnameLine a ns).1 a.status
              (baseApplication a) (resolveEnvironment cfg a.labels) (baseSeverity a ds))
    ∧ (∀ (pts2 : String → Option String) (sAt eAt : Option String),
        parse_alert { a with startsAt := sAt, endsAt := eAt } ds ns pts2 cfg
          = parse_alert a ds ns pts cfg) := by
  have ht : ∀ (p : String → Option String) (sAt eAt : Option String),
      timestampLine { a with startsAt := sAt, endsAt := eAt } ns p = .ok "" := by
    intro p sAt eAt
    simp [timestampLine, h1, h2]
  have ht0 : timestampLine a ns pts = .ok "" := by
    simp [timestampLine, h1, h2]
  constructor
  · simp [parse_alert, h3, ht0, String.append_empty]
  · intro pts2 sAt eAt
    simp [parse_alert, h3, ht0, ht, baseTitle, baseDescription, baseApplication,
          baseSeverity, hostnameLine, resolveEnvironment, optLine]

/-- Witness for C10 at a concrete alert with an unknown status and no
timestamp fields. -/
theorem no_timestamp_for_other_status_witness :
    parse_alert aNoopX "d" "discord" ptsX cfgX
      = .ok (.alert (baseTitle aNoopX) (baseDescription aNoopX "discord")
              (hostnameLine aNoopX "discord").1 aNoopX.status (baseApplication aNoopX)
              (resolveEnvironment cfgX aNoopX.labels) (baseSeverity aNoopX "d")) :=
  (no_timestamp_for_other_status cfgX aNoopX "d" "discord" ptsX
    (by decide) (by decide) (by decide)).1

/-- C2: for every alert whose labels carry alertname Watchdog,
parse_alert returns the suppression marker (the all-None tuple, never a
partially built record), and the per-alert step of each of the three
destination handlers issues no outbound HTTP call for that alert: the
discord and telegram steps leave the loop state unchanged, and the
pagerduty step returns the unchanged accumulated state (the None
severity takes the early return there) — in every case the call
counter does not move. -/
theorem watchdog_suppressed_no_delivery
    (cfg : Config) (dcfg : DiscordCfg) (tcfg : TelegramCfg) (pcfg : PagerdutyCfg)
    (ds ns : String) (pts : String → Option String) (http : Nat → HttpResp)
    (st : HState) (a : Alert)
    (hw : alookup a.labels "alertname" = some "Watchdog") :
    parse_alert a ds ns pts cfg = .ok .suppressed
    ∧ discordStep cfg dcfg ds pts http st a = .ok st
    ∧ telegramStep cfg tcfg ds pts http st a = .ok st
    ∧ pagerdutyStep cfg pcfg ds pts http st a = .ok (.stop st) := by
  have hp : ∀ ns2, parse_alert a ds ns2 pts cfg = .ok .suppressed := by
    intro ns2
    simp [parse_alert, hw]
  exact ⟨hp ns,
         by simp [discordStep, hp "discord"],
         by simp [telegramStep, hp "telegram"],
         by simp [pagerdutyStep, hp "pagerduty"]⟩

/-- Witness for C2 at a concrete Watchdog alert. -/
theorem watchdog_suppressed_no_delivery_witness :
    parse_alert aWatchX "d" "discord" ptsX cfgX = .ok .suppressed
    ∧ discordStep cfgX dcfgX "d" ptsX httpOkX st0X aWatchX = .ok st0X
    ∧ telegramStep cfgX tcfgX "d" ptsX httpOkX st0X aWatchX = .ok st0X
    ∧ pagerdutyStep cfgX pcfgX "d" ptsX httpOkX st0X aWatchX = .ok (.stop st0X) :=
  watchdog_suppressed_no_delivery cfgX dcfgX tcfgX pcfgX "d" "discord" ptsX httpOkX
    st0X aWatchX (by decide)

/-- C3: a paging delivery is attempted only for a critical firing
alert: for every alert parsed to a record where the severity is not
critical or the status is not firing, the pagerduty step issues no
outbound call and leaves the accumulated state unchanged (it either
takes the early return or skips to the next alert); and the concrete
batch holding one firing warning alert yields an empty paging result
list with zero outbound calls. -/
theorem pagerduty_gating :
    (∀ (cfg : Config) (pcfg : PagerdutyCfg) (ds : String) (pts : String → Option String)
       (http : Nat → HttpResp) (st : HState) (a : Alert) (t d h s ap env sev : String),
       parse_alert a ds "pagerduty" pts cfg = .ok (.alert t d h s ap env sev) →
       (sev ≠ "critical" ∨ s ≠ "firing") →
       pagerdutyStep cfg pcfg ds pts http st a = .ok (.stop st)
       ∨ pagerdutyStep cfg pcfg ds pts http st a = .ok (.next st))
    ∧ pagerduty_handler cfgX [aWarnX] "d" ptsX httpOkX = .ok { ncalls := 0, responses := [] } := by
  constructor
  · intro cfg pcfg ds pts http st a t d h s ap env sev hp hcond
    by_cases hc : sev = "critical"
    · have hs : s ≠ "firing" := by
        rcases hcond with hne | hne
        · exact absurd hc hne
        · exact hne
      right
      simp [pagerdutyStep, hp, hc, hs]
    · left
      simp [pagerdutyStep, hp, hc]
  · rfl

/-- Witness for C3 at a concrete firing warning alert. -/
theorem pagerduty_gating_witness :
    pagerdutyStep cfgX pcfgX "d" ptsX httpOkX st0X aWarnX = .ok (.stop st0X)
    ∨ pagerdutyStep cfgX pcfgX "d" ptsX httpOkX st0X aWarnX = .ok (.next st0X) :=
  pagerduty_gating.1 cfgX pcfgX "d" ptsX httpOkX st0X aWarnX _ _ _ _ _ _ _
    (by rfl) (Or.inl (by decide))

/-- C5 (code bug): the pagerduty handler does not evaluate every alert
of the batch.  On the batch [firing warning alert, firing critical
alert] the handler returns immediately at the first alert (the
severity check on webhook.py line 582 executes a return, not a
continue), so the qualifying critical alert is never delivered: zero
outbound calls and an empty response list — although the same critical
alert alone is delivered with one call.  The claim that a non-critical
alert early in the batch does not prevent a later qualifying alert
from being delivered is therefore violated by the code. -/
theorem pagerduty_early_return_aborts_batch :
    pagerduty_handler cfgX [aWarnX, aCritX] "d" ptsX httpOkX
      = .ok { ncalls := 0, responses := [] }
    ∧ pagerduty_handler cfgX [aCritX] "d" ptsX httpOkX
      = .ok { ncalls := 1, responses := ["ok"] } :=
  ⟨rfl, rfl⟩

/-- C4 counterexample: on a firing warning alert whose environment has
an entry but whose severity does not, the telegram handler silently
skips (empty response list, no error) while the discord handler does
not skip: its unchecked routing lookup raises a KeyError that
propagates out of the handler.  The claim that both destinations
soft-skip a missing routing entry is therefore false for discord. -/
theorem discord_missing_route_raises :
    discord_handler cfgX [aWarnX] "d" ptsX httpOkX = .failed "KeyError: warning"
    ∧ telegram_handler cfgX [aWarnX] "d" ptsX httpOkX = .ok { ncalls := 0, responses := [] } :=
  ⟨rfl, rfl⟩

/-- C4 amended: for every non-suppressed alert, when the resolved
environment has no entry in the destination's routing configuration or
the severity has no entry under that environment, the telegram handler
silently skips the alert (state unchanged, processing continues),
whereas the discord handler raises an error (its lookup is unchecked),
so the soft-skip guarantee holds for telegram only. -/
theorem routing_soft_skip_amended :
    (∀ (cfg : Config) (tcfg : TelegramCfg) (ds : String) (pts : String → Option String)
       (http : Nat → HttpResp) (st : HState) (a : Alert) (t d h s ap env sev : String),
       parse_alert a ds "telegram" pts cfg = .ok (.alert t d h s ap env sev) →
       (alookup tcfg.environments env = none
        ∨ ∃ sm, alookup tcfg.environments env = some sm ∧ alookup sm sev = none) →
       telegramStep cfg tcfg ds pts http st a = .ok st)
    ∧ (∀ (cfg : Config) (dcfg : DiscordCfg) (ds : String) (pts : String → Option String)
       (http : Nat → HttpResp) (st : HState) (a : Alert) (t d h s ap env sev : String),
       parse_alert a ds "discord" pts cfg = .ok (.alert t d h s ap env sev) →
       (alookup dcfg.environments env = none
        ∨ ∃ sm, alookup dcfg.environments env = some sm ∧ alookup sm sev = none) →
       ∃ e, discordStep cfg dcfg ds pts http st a = .error e) := by
  constructor
  · intro cfg tcfg ds pts http st a t d h s ap env sev hp hmiss
    rcases hmiss with hm | ⟨sm, hsm, hsev⟩
    · simp [telegramStep, hp, hm]
    · simp [telegramStep, hp, hsm, hsev]
  · intro cfg dcfg ds pts http st a t d h s ap env sev hp hmiss
    rcases hmiss with hm | ⟨sm, hsm, hsev⟩
    · exact ⟨"KeyError: " ++ env, by simp [discordStep, hp, hm]⟩
    · exact ⟨"KeyError: " ++ sev, by simp [discordStep, hp, hsm, hsev]⟩

/-- Witness for the amended C4 at a concrete firing warning alert. -/
theorem routing_soft_skip_amended_witness :
    telegramStep cfgX tcfgX "d" ptsX httpOkX st0X aWarnX = .ok st0X
    ∧ (∃ e, discordStep cfgX dcfgX "d" ptsX httpOkX st0X aWarnX = .error e) :=
  ⟨routing_soft_skip_amended.1 cfgX tcfgX "d" ptsX httpOkX st0X aWarnX _ _ _ _ _ _ _
     (by rfl) (Or.inr ⟨_, by rfl, by rfl⟩),
   routing_soft_skip_amended.2 cfgX dcfgX "d" ptsX httpOkX st0X aWarnX _ _ _ _ _ _ _
     (by rfl) (Or.inr ⟨_, by rfl, by rfl⟩)⟩

/-- C6 counterexample: with the mapping [a -> xb, b -> y] and raw
environment "ab" (both keys are substrings of the raw value, a is the
earliest), the loop produces "y", not the earliest entry's value "xb":
the first substitution rewrites the value to "xb" and the later key b
then matches the substituted value, overriding it.  The loop therefore
does not implement first-match-wins as the claim states. -/
theorem environment_mapping_not_first_match :
    isSubstrOf "a".toList "ab".toList = true
    ∧ isSubstrOf "b".toList "ab".toList = true
    ∧ applyMapping [("a", "xb"), ("b", "y")] "ab" = "y"
    ∧ resolveEnvironment
        { valid_environments := ["xb", "y", "dflt"], default_environment := "dflt"
        , environment_mapping := [("a", "xb"), ("b", "y")]
        , discord := none, telegram := none, pagerduty := none }
        [("environment", "ab")] = "y" := by
  refine ⟨by decide, by decide, by decide, by decide⟩

/-- When no entry's key is a substring of the current value the mapping
loop leaves the value unchanged. -/
theorem applyMapping_of_no_match {mapping : List (String × String)} {e : String}
    (h : ∀ p ∈ mapping, isSubstrOf p.1.toList e.toList = false) :
    applyMapping mapping e = e := by
  induction mapping with
  | nil => rfl
  | cons kv rest ih =>
    have hk := h kv (List.mem_cons_self kv rest)
    simp only [applyMapping, hk]
    simp only [Bool.false_eq_true, if_false]
    exact ih (fun p hp => h p (List.mem_cons_of_mem kv hp))

/-- C6 amended: the mapping loop applies, in order, every entry whose
key is a substring of the current (possibly already substituted)
value, so later entries can override earlier ones; but whenever no
mapping value itself contains a mapping key as a substring
(a stability condition the counterexample violates), the loop agrees
with first-match-wins: its result is the value of the first entry
whose key is a substring of the raw value, or the raw value when no
entry matches. -/
theorem environment_mapping_first_match_when_stable
    (mapping : List (String × String)) (raw : String)
    (hstable : ∀ p ∈ mapping, ∀ q ∈ mapping, isSubstrOf p.1.toList q.2.toList = false) :
    applyMapping mapping raw
      = match mapping.find? (fun p => isSubstrOf p.1.toList raw.toList) with
        | some p => p.2
        | none => raw := by
  induction mapping with
  | nil => rfl
  | cons kv rest ih =>
    by_cases hk : isSubstrOf kv.1.toList raw.toList = true
    · have hrest : ∀ p ∈ rest, isSubstrOf p.1.toList kv.2.toList = false := by
        intro p hp
        exact hstable p (List.mem_cons_of_mem kv hp) kv (List.mem_cons_self kv rest)
      simp only [applyMapping, hk, if_true, List.find?_cons, hk]
      exact applyMapping_of_no_match hrest
    · have hk2 : isSubstrOf kv.1.toList raw.toList = false := by
        exact Bool.not_eq_true _ ▸ (by simpa using hk)
      simp only [applyMapping, hk2, Bool.false_eq_true, if_false, List.find?_cons, hk2]
      exact ih (fun p hp q hq =>
        hstable p (List.mem_cons_of_mem kv hp) q (List.mem_cons_of_mem kv hq))

/-- Witness for the amended C6 at a concrete stable mapping. -/
theorem environment_mapping_first_match_when_stable_witness :
    applyMapping [("dev", "sandbox"), ("prd", "live")] "prd-eu" = "live" := by
  rw [environment_mapping_first_match_when_stable
        [("dev", "sandbox"), ("prd", "live")] "prd-eu" (by decide)]
  rfl

/-- C7: the 429 retry of the dispatcher (shared by the discord,
telegram and pagerduty delivery blocks) issues at most 2 outbound
calls per alert and destination; on a 429 first response it retries
exactly once after waiting the server-supplied retry_after and records
the second response body whatever it is (so a failed retry is recorded
in the response payload, never raised); on any other first response it
records that body after a single call.  Concretely, against an
upstream answering 429 with retry_after 2 and then 200, the telegram
handler issues exactly 2 calls and records the 200 response body. -/
theorem rate_limit_retry_once :
    (∀ (http : Nat → HttpResp) (n : Nat),
       (postWithRetry http n).calls ≤ 2
       ∧ ((http n).status = 429 →
            postWithRetry http n
              = { calls := 2, waited := some (http n).retry_after
                , recorded := (http (n + 1)).body })
       ∧ ((http n).status ≠ 429 →
            postWithRetry http n = { calls := 1, waited := none, recorded := (http n).body }))
    ∧ telegram_handler cfgX [aCritX] "d" ptsX http429X
        = .ok { ncalls := 2, responses := ["ok"] } := by
  constructor
  · intro http n
    by_cases h : (http n).status = 429
    · exact ⟨by simp [postWithRetry, h], fun _ => by simp [postWithRetry, h],
             fun hn => absurd h hn⟩
    · exact ⟨by simp [postWithRetry, h], fun h4 => absurd h4 h,
             fun _ => by simp [postWithRetry, h]⟩
  · rfl

/-- Witness for C7 at the concrete 429-then-200 upstream. -/
theorem rate_limit_retry_once_witness :
    postWithRetry http429X 0 = { calls := 2, waited := some 2, recorded := "ok" } :=
  ((rate_limit_retry_once.1 http429X 0).2.1 (by rfl)).trans rfl

/-- C8 counterexample: a text without any hyperlink-pattern occurrence
is returned unchanged even for an unsupported output format — the
format check sits inside the per-match loop, so the claim that every
input text fails with the unsupported-format error is false. -/
theorem unsupported_format_no_match_returns_text :
    substitute_hyperlinks "hello" "bogus" = .ok "hello" := rfl

/-- C8 amended: with an output format other than html or markdown, the
hyperlink normalizer fails with the unsupported-format error exactly
when the text contains at least one occurrence of the pattern; a text
with no occurrence is returned unchanged regardless of the format. -/
theorem unsupported_format_raises_iff_match (text fmt : String)
    (h1 : fmt ≠ "html") (h2 : fmt ≠ "markdown") :
    (findAll text.toList = [] → substitute_hyperlinks text fmt = .ok text)
    ∧ (findAll text.toList ≠ [] →
        substitute_hyperlinks text fmt = .error ("Unsupported link format: " ++ fmt)) := by
  constructor
  · intro h
    unfold substitute_hyperlinks
    rw [h]
    rfl
  · intro h
    rcases hfa : findAll text.toList with _ | ⟨m, ms⟩
    · exact absurd hfa h
    · unfold substitute_hyperlinks
      rw [hfa]
      simp [substLoop, h1, h2]

/-- Witness for the amended C8 at a concrete matching text. -/
theorem unsupported_format_raises_iff_match_witness :
    substitute_hyperlinks "<https://a|b>" "bogus"
      = .error "Unsupported link format: bogus" :=
  ((unsupported_format_raises_iff_match "<https://a|b>" "bogus"
      (by decide) (by decide)).2 (by decide)).trans rfl

/-- C9 amended: a text containing no occurrence of the hyperlink
pattern is returned unchanged by the normalizer for every output
format (hence the normalizer is idempotent on such text); the claim's
further guarantee that a substituted output never contains a residual
occurrence of the raw pattern is false (see the counterexample, where
a match whose link text itself holds a pattern fragment leaves a fresh
occurrence behind). -/
theorem hyperlink_no_match_unchanged (text fmt : String)
    (h : findAll text.toList = []) :
    substitute_hyperlinks text fmt = .ok text := by
  unfold substitute_hyperlinks
  rw [h]
  rfl

/-- Witness for the amended C9 on plain text. -/
theorem hyperlink_no_match_unchanged_witness :
    substitute_hyperlinks "plain text" "markdown" = .ok "plain text" :=
  hyperlink_no_match_unchanged "plain text" "markdown" (by decide)

/-- C9 counterexample: this input contains exactly one occurrence of
the raw pattern, yet the markdown output still contains an occurrence
of the raw pattern (the match's link text holds a pattern fragment,
and the text after the replacement completes it), refuting the claim
that the output contains no residual occurrence. -/
theorem hyperlink_residual_pattern :
    (findAll ("X<https://u|<https://v|w>Y>Z".toList)).length = 1
    ∧ substitute_hyperlinks "X<https://u|<https://v|w>Y>Z" "markdown"
        = .ok "X[<https://v|w](https://u)Y>Z"
    ∧ findAll ("X[<https://v|w](https://u)Y>Z".toList) ≠ [] :=
  ⟨by decide, rfl, by decide⟩
